import Mathlib

/-!
Verification of the Session Progress Engine of `src/app.py` (a quiz app):
a shallow embedding of the deterministic per-player ordering, cursor,
answer-recording and daily-statistics logic, together with theorems about it.

Python dictionaries holding answer records are embedded as association lists;
a dictionary field that can be absent is an `Option`, and a field whose stored
value can itself be Python `None` is an `Option (Option _)` (outer layer:
present or absent; inner layer: the value or `None`).
-/

namespace QuizApp

/-- Model of the 64-bit seed `deterministic_shuffle` derives in `src/app.py`
(first 8 bytes of `hashlib.sha256(player + "|" + day)`, big endian).  `sha256`
is external library code, not code of this repository, so it is modelled by a
concrete executable string hash reduced modulo `2 ^ 64`; every theorem proved
below about the shuffle holds for an arbitrary seed (see `fyAux_perm`, which
is quantified over the whole random stream), so nothing depends on the
particular hash values. -/
def hashSeed (s : String) : Nat :=
  s.data.foldl (fun h c => (h * 131 + c.toNat + 7) % (2 ^ 64)) 5381

/-- Model of the stream of values drawn from `random.Random(seed)` inside
`random.shuffle`: `pyRandStream seed i` models the draw `_randbelow(i + 1)`
used when the Fisher-Yates loop is at index `i`.  The Mersenne Twister is
external library code; it is modelled by a concrete executable mixing
function, and every theorem below holds for an arbitrary stream
(see `fyAux_perm`). -/
def pyRandStream (seed : Nat) (i : Nat) : Nat :=
  (seed * (2 * i + 1) + i * i * 2654435761 + 97) % (2 ^ 64)

/-- Swap the elements at positions `i` and `j` of a list; if either index is
out of range the list is unchanged.  This is the elementary step of the
Fisher-Yates shuffle performed by `random.shuffle`. -/
def listSwap (l : List Int) (i j : Nat) : List Int :=
  match l[i]?, l[j]? with
  | some a, some b => (l.set i b).set j a
  | _, _ => l

/-- The Fisher-Yates loop of `random.shuffle`: for `i` from `len - 1`
down to `1`, swap position `i` with position `g i % (i + 1)` (the library
guarantees the drawn index is in range; the reduction makes that explicit).
`fyAux g n l` performs the iterations for `i = n, n - 1, ..., 1`. -/
def fyAux (g : Nat → Nat) : Nat → List Int → List Int
  | 0, l => l
  | Nat.succ i, l => fyAux g i (listSwap l (i + 1) (g (i + 1) % (i + 2)))

/-- `random.shuffle` on a list, given the stream `g` of random draws. -/
def fisherYates (g : Nat → Nat) (l : List Int) : List Int :=
  fyAux g (l.length - 1) l

/-- `deterministic_shuffle` of `src/app.py` (lines 583-590): seed a PRNG from
`sha256(player + "|" + day)` truncated to 64 bits and shuffle a copy of the
input with it. -/
def deterministic_shuffle (player : String) (day : String) (items : List Int) : List Int :=
  fisherYates (pyRandStream (hashSeed (player ++ "|" ++ day))) items

/-- Helper for the swap permutation lemma: overwriting position `m` (holding
`b`) with `x` and re-adding `b` in front is a permutation of adding `x` in
front. -/
theorem cons_set_perm (t : List Int) :
    ∀ (m : Nat) (b x : Int), t[m]? = some b → (b :: t.set m x).Perm (x :: t) := by
  induction t with
  | nil =>
    intro m b x h
    simp at h
  | cons c t ih =>
    intro m b x h
    cases m with
    | zero =>
      simp at h
      subst h
      simpa using List.Perm.swap x c t
    | succ k =>
      simp at h
      have h2 := ih k b x h
      have step1 : (b :: c :: t.set k x).Perm (c :: b :: t.set k x) := List.Perm.swap c b _
      have step2 : (c :: b :: t.set k x).Perm (c :: x :: t) := h2.cons c
      have step3 : (c :: x :: t).Perm (x :: c :: t) := List.Perm.swap x c t
      simpa using step1.trans (step2.trans step3)

/-- Swapping two positions of a list is a permutation of the list. -/
theorem listSwap_perm (l : List Int) : ∀ i j : Nat, (listSwap l i j).Perm l := by
  induction l with
  | nil =>
    intro i j
    simp [listSwap]
  | cons x t ih =>
    intro i j
    cases i with
    | zero =>
      cases j with
      | zero => simp [listSwap]
      | succ k =>
        cases h : t[k]? with
        | none => simp [listSwap, h]
        | some b =>
          simpa [listSwap, h] using cons_set_perm t k b x h
    | succ m =>
      cases j with
      | zero =>
        cases h : t[m]? with
        | none => simp [listSwap, h]
        | some a =>
          simpa [listSwap, h] using cons_set_perm t m a x h
      | succ k =>
        cases h1 : t[m]? with
        | none => simp [listSwap, h1]
        | some a =>
          cases h2 : t[k]? with
          | none => simp [listSwap, h1, h2]
          | some b =>
            have := (ih m k).cons x
            simpa [listSwap, h1, h2] using this

/-- Every run of the Fisher-Yates loop is a permutation of its input,
whatever the stream of random draws. -/
theorem fyAux_perm (g : Nat → Nat) : ∀ (n : Nat) (l : List Int), (fyAux g n l).Perm l := by
  intro n
  induction n with
  | zero =>
    intro l
    exact List.Perm.refl l
  | succ i ih =>
    intro l
    exact (ih _).trans (listSwap_perm l (i + 1) (g (i + 1) % (i + 2)))

/-- `fisherYates` permutes its input for every stream of draws. -/
theorem fisherYates_perm (g : Nat → Nat) (l : List Int) : (fisherYates g l).Perm l :=
  fyAux_perm g (l.length - 1) l

/-- C1: for every player string, mix-key string and list of integer ids,
`deterministic_shuffle(player, mixKey, ids)` is a permutation of `ids` (the
same multiset, nothing lost or duplicated), and two calls with identical
arguments return the identical sequence. -/
theorem C1_deterministic_shuffle_perm (player mixKey : String) (ids : List Int) :
    (deterministic_shuffle player mixKey ids).Perm ids ∧
    ((deterministic_shuffle player mixKey ids : Multiset Int) = (ids : Multiset Int)) ∧
    deterministic_shuffle player mixKey ids = deterministic_shuffle player mixKey ids := by
  refine ⟨fisherYates_perm _ ids, ?_, rfl⟩
  exact Quot.sound (fisherYates_perm _ ids)

/-- An answer record, as stored under `answered[qid]` (and as the payloads the
UI handlers build).  A Python dict key that may be absent is an `Option`; a
key whose stored value can itself be `None` is an `Option (Option _)`. -/
structure AnswerRec where
  ts : Option String
  correct : Option (Option Bool)
  selected : Option (Option (List Int))
  freeText : Option (Option String)
  skipped : Option Bool
  unsure : Option Bool
  repeats : Option Int
  mastered : Option Bool
deriving DecidableEq, Repr

/-- The empty answer record (`{}` / a missing dict entry). -/
def emptyRec : AnswerRec :=
  ⟨none, none, none, none, none, none, none, none⟩

/-- The per-day counters stored in `state["daily"]`. -/
structure Counters where
  correct : Int
  wrong : Int
  skipped : Int
  unsure : Int
  total : Int
deriving DecidableEq, Repr

/-- Fresh zeroed counters. -/
def zeroCounters : Counters :=
  ⟨0, 0, 0, 0, 0⟩

/-- Python dict assignment `m[k] = v` on an association list: the new binding
shadows and removes any previous binding of `k`. -/
def upsert {α β : Type} [BEq α] (k : α) (v : β) (m : List (α × β)) : List (α × β) :=
  (k, v) :: m.filter (fun p => !(p.1 == k))

/-- The player state blob of `src/app.py` (see `load_player_state` and the
keys set by the various handlers).  Keys that the code treats as having a
default when absent (`mode`, `practice_mode`, `shuffle_nonce`, the focus and
practice fields) are plain fields holding that default, since every read in
the source goes through `.get` with the same default.  `sr_gap` is kept
optional because the source only ever reads it (`state.get("sr_gap", 7)`). -/
structure PlayerState where
  player : String
  cursor : Int
  order_date : String
  order : List Int
  answered : List (Int × AnswerRec)
  daily : List (String × Counters)
  shuffle_nonce : Int
  mode : String
  practice_mode : String
  focus_order : List Int
  focus_cursor : Int
  focus_answered : List (Int × AnswerRec)
  practice_answered : List (Int × AnswerRec)
  resume_cursor : Int
  sr_gap : Option Int
deriving DecidableEq, Repr

/-- The fresh skeleton produced by `load_player_state` for an unknown player
(and by the full-reset button). -/
def initState (player : String) : PlayerState :=
  ⟨player, 0, "", [], [], [], 0, "normal", "all", [], 0, [], [], 0, none⟩

/-- `ensure_daily_order` of `src/app.py` (lines 593-641): regenerate the order
on a new day / nonce or when stored ids vanished from the dataset; otherwise
append newly added ids (key suffixed with a new-marker) and clamp the cursor.
`today` stands for `str(date.today())`. -/
def ensure_daily_order (today : String) (state : PlayerState) (player : String)
    (ids : List Int) : PlayerState :=
  if state.order_date ≠ today ++ "#" ++ toString state.shuffle_nonce ∨ state.order = [] then
    { state with
        order_date := today ++ "#" ++ toString state.shuffle_nonce,
        order := deterministic_shuffle player (today ++ "#" ++ toString state.shuffle_nonce) ids,
        cursor := 0 }
  else if ¬ (∀ x ∈ state.order, x ∈ ids) then
    { state with
        order_date := today ++ "#" ++ toString state.shuffle_nonce,
        order := deterministic_shuffle player (today ++ "#" ++ toString state.shuffle_nonce) ids,
        cursor := 0 }
  else if ids.filter (fun i => decide (i ∉ state.order)) = [] then
    { state with
        cursor := max 0 (min state.cursor (state.order.length : Int)) }
  else
    { state with
        order := state.order ++ deterministic_shuffle player
          (today ++ "#" ++ toString state.shuffle_nonce ++ "|new")
          (ids.filter (fun i => decide (i ∉ state.order))),
        cursor := max 0 (min state.cursor
          ((state.order ++ deterministic_shuffle player
            (today ++ "#" ++ toString state.shuffle_nonce ++ "|new")
            (ids.filter (fun i => decide (i ∉ state.order)))).length : Int)) }

/-- A clamped value is a fixed point of clamping. -/
theorem clamp_idem (c L : Int) (hL : 0 ≤ L) :
    max 0 (min (max 0 (min c L)) L) = max 0 (min c L) := by
  omega

/-- Membership in a shuffled list is membership in the original list. -/
theorem mem_deterministic_shuffle (player key : String) (ids : List Int) (x : Int) :
    x ∈ deterministic_shuffle player key ids ↔ x ∈ ids :=
  (fisherYates_perm _ ids).mem_iff

/-- The list of ids missing from an order that already contains every id is
empty. -/
theorem missing_eq_nil (ids ord : List Int) (h : ∀ i ∈ ids, i ∈ ord) :
    ids.filter (fun i => decide (i ∉ ord)) = [] := by
  rw [List.filter_eq_nil_iff]
  intro a ha
  simpa using h a ha

/-- Any state whose `order_date` already matches today's mix key, whose order
and id set contain each other's elements, and whose cursor is already
clamped, is a fixed point of `ensure_daily_order`. -/
theorem ensure_daily_order_fixpoint (today player : String) (s1 : PlayerState)
    (ids : List Int)
    (hA : s1.order_date = today ++ "#" ++ toString s1.shuffle_nonce)
    (hB : ∀ x ∈ s1.order, x ∈ ids)
    (hC : ∀ i ∈ ids, i ∈ s1.order)
    (hD : s1.cursor = max 0 (min s1.cursor (s1.order.length : Int))) :
    ensure_daily_order today s1 player ids = s1 := by
  by_cases horder : s1.order = []
  · have hids : ids = [] := by
      rw [List.eq_nil_iff_forall_not_mem]
      intro a ha
      have h := hC a ha
      rw [horder] at h
      simp at h
    have hcur : s1.cursor = 0 := by
      rw [horder] at hD
      simp at hD
      omega
    have hsh : deterministic_shuffle player (today ++ "#" ++ toString s1.shuffle_nonce) ids
        = [] := by
      rw [hids]
      rfl
    unfold ensure_daily_order
    rw [if_pos (Or.inr horder)]
    rw [hsh, ← hA, ← horder, ← hcur]
  · unfold ensure_daily_order
    rw [if_neg (by push_neg; exact ⟨hA, horder⟩)]
    rw [if_neg (by push_neg; exact hB)]
    rw [if_pos (missing_eq_nil ids s1.order hC)]
    rw [← hD]

/-- C2: `ensure_daily_order` is idempotent: a second call with the same
player, day, and question-id set leaves the state exactly as the first call
left it (in particular `order` and `cursor` are unchanged). -/
theorem C2_ensure_daily_order_idempotent (today player : String) (state : PlayerState)
    (ids : List Int) :
    ensure_daily_order today (ensure_daily_order today state player ids) player ids
      = ensure_daily_order today state player ids := by
  apply ensure_daily_order_fixpoint
  -- order_date after the call matches the mix key
  · unfold ensure_daily_order
    split_ifs with h1 h2 h3 <;> dsimp only
    all_goals first
      | rfl
      | (push_neg at h1
         exact h1.1)
  -- every element of the new order is a current id
  · unfold ensure_daily_order
    split_ifs with h1 h2 h3 <;> dsimp only
    all_goals first
      | (intro x hx
         exact (mem_deterministic_shuffle _ _ _ _).mp hx)
      | exact h2
      | (intro x hx
         rcases List.mem_append.mp hx with hx1 | hx1
         · exact h2 x hx1
         · exact (List.mem_filter.mp ((mem_deterministic_shuffle _ _ _ _).mp hx1)).1)
  -- every current id is in the new order
  · unfold ensure_daily_order
    split_ifs with h1 h2 h3 <;> dsimp only
    all_goals first
      | (intro i hi
         exact (mem_deterministic_shuffle _ _ _ _).mpr hi)
      | (intro i hi
         by_contra hni
         have hmem : i ∈ ids.filter (fun j => decide (j ∉ state.order)) := by
           rw [List.mem_filter]
           exact ⟨hi, by simpa using hni⟩
         rw [h3] at hmem
         simp at hmem)
      | (intro i hi
         rw [List.mem_append]
         by_cases hio : i ∈ state.order
         · exact Or.inl hio
         · refine Or.inr ((mem_deterministic_shuffle _ _ _ _).mpr ?_)
           rw [List.mem_filter]
           exact ⟨hi, by simpa using hio⟩)
  -- the cursor is already clamped
  · unfold ensure_daily_order
    split_ifs with h1 h2 h3 <;> dsimp only
    all_goals first
      | exact (clamp_idem _ _ (Int.natCast_nonneg _)).symm
      | (have hL : (0 : Int) ≤
            ((deterministic_shuffle player (today ++ "#" ++ toString state.shuffle_nonce)
              ids).length : Int) := Int.natCast_nonneg _
         omega)

/-- C5: when the id set grows between two `ensure_daily_order` calls on the
same day and nonce (all previously ordered ids still present, at least one id
new), the resulting order is the previous order with the deterministic
shuffle (key suffixed with the new-marker) of the missing ids appended after
it: every pre-existing position — duplicates included — is preserved, and the
appended block is exactly a permutation of the missing ids. -/
theorem C5_ensure_daily_order_appends_new_ids (today player : String) (s : PlayerState)
    (ids : List Int)
    (hdate : s.order_date = today ++ "#" ++ toString s.shuffle_nonce)
    (hne : s.order ≠ [])
    (hsub : ∀ x ∈ s.order, x ∈ ids)
    (hmiss : ids.filter (fun i => decide (i ∉ s.order)) ≠ []) :
    (ensure_daily_order today s player ids).order
      = s.order ++ deterministic_shuffle player (s.order_date ++ "|new")
          (ids.filter (fun i => decide (i ∉ s.order))) ∧
    ((ensure_daily_order today s player ids).order.drop s.order.length).Perm
          (ids.filter (fun i => decide (i ∉ s.order))) := by
  have horder : (ensure_daily_order today s player ids).order
      = s.order ++ deterministic_shuffle player (s.order_date ++ "|new")
          (ids.filter (fun i => decide (i ∉ s.order))) := by
    unfold ensure_daily_order
    rw [if_neg (by push_neg; exact ⟨hdate, hne⟩)]
    rw [if_neg (by push_neg; exact hsub)]
    rw [if_neg hmiss]
    dsimp only
    rw [hdate]
  refine ⟨horder, ?_⟩
  rw [horder, List.drop_left]
  exact fisherYates_perm _ _

/-- Witness for C5 at a concrete input: the stored order `[2, 1, 3]` for ids
`[1, 2, 3]` grows to ids `[1, 2, 3, 4, 5]`; the new order keeps `[2, 1, 3]`
as a prefix and appends a permutation of `[4, 5]`. -/
theorem C5_ensure_daily_order_appends_new_ids_witness :
    (ensure_daily_order "2024-01-01"
        { initState "alice" with order_date := "2024-01-01#0", order := [2, 1, 3], cursor := 1 }
        "alice" [1, 2, 3, 4, 5]).order
      = [2, 1, 3] ++ deterministic_shuffle "alice" ("2024-01-01#0" ++ "|new")
          ([1, 2, 3, 4, 5].filter (fun i => decide (i ∉ ([2, 1, 3] : List Int)))) ∧
    ((ensure_daily_order "2024-01-01"
        { initState "alice" with order_date := "2024-01-01#0", order := [2, 1, 3], cursor := 1 }
        "alice" [1, 2, 3, 4, 5]).order.drop 3).Perm
          ([1, 2, 3, 4, 5].filter (fun i => decide (i ∉ ([2, 1, 3] : List Int)))) := by
  exact C5_ensure_daily_order_appends_new_ids "2024-01-01" "alice"
    { initState "alice" with order_date := "2024-01-01#0", order := [2, 1, 3], cursor := 1 }
    [1, 2, 3, 4, 5] (by decide) (by decide) (by decide) (by decide)

/-- Python truthiness of a possibly-absent boolean dict value
(`bool(d.get(key))`). -/
def truthy (b : Option Bool) : Bool :=
  b.getD false

/-- Python `d.get("correct")`: collapses "key absent" and "key present with
value `None`" into `none`, exactly as `.get` returns `None` for both. -/
def getCorrect (r : AnswerRec) : Option Bool :=
  r.correct.getD none

/-- Python dict merge `{**prev, **result}`: fields present in `result`
override those of `prev`. -/
def mergeRec (prev r : AnswerRec) : AnswerRec :=
  ⟨r.ts <|> prev.ts, r.correct <|> prev.correct, r.selected <|> prev.selected,
   r.freeText <|> prev.freeText, r.skipped <|> prev.skipped, r.unsure <|> prev.unsure,
   r.repeats <|> prev.repeats, r.mastered <|> prev.mastered⟩

/-- Looking up the key just written by `upsert` yields the written value. -/
theorem lookup_upsert_self {α β : Type} [BEq α] [LawfulBEq α] (k : α) (v : β)
    (m : List (α × β)) : List.lookup k (upsert k v m) = some v := by
  simp [upsert, List.lookup]

/-- Looking up a different key after `upsert` is unaffected. -/
theorem lookup_upsert_ne {α β : Type} [BEq α] [LawfulBEq α] (k k2 : α) (v : β)
    (m : List (α × β)) (h : k2 ≠ k) : List.lookup k2 (upsert k v m) = List.lookup k2 m := by
  have hb : (k2 == k) = false := by simpa using h
  induction m with
  | nil => simp [upsert, List.lookup, hb]
  | cons p t ih =>
    by_cases hpk : p.1 == k
    · have hp2 : (k2 == p.1) = false := by
        have : p.1 = k := by simpa using hpk
        simpa [this] using h
      simp only [upsert, List.filter] at ih ⊢
      rw [hpk]
      simp only [Bool.not_true]
      simpa [List.lookup, hb, hp2] using ih
    · simp only [upsert, List.filter] at ih ⊢
      rw [Bool.not_eq_true] at hpk
      rw [hpk]
      by_cases hk2p : (k2 == p.1) = true
      · simp [List.lookup, hb, hk2p]
      · rw [Bool.not_eq_true] at hk2p
        simpa [List.lookup, hb, hk2p] using ih

/-- `bump_daily` of `src/app.py` (lines 643-655): add one to today's total and
to exactly one of the skipped / correct / wrong counters (plus the unsure
counter when flagged and not skipped). -/
def bump_daily (today : String) (daily : List (String × Counters))
    (correct : Option Bool) (skipped unsure : Bool) : List (String × Counters) :=
  let d0 := (List.lookup today daily).getD zeroCounters
  let d1 : Counters := { d0 with total := d0.total + 1 }
  let d2 : Counters :=
    if skipped then { d1 with skipped := d1.skipped + 1 }
    else
      let d1a := if correct = some true then { d1 with correct := d1.correct + 1 }
                 else { d1 with wrong := d1.wrong + 1 }
      if unsure then { d1a with unsure := d1a.unsure + 1 } else d1a
  upsert today d2 daily

/-- Today's counters as the sidebar reads them (`format_daily`). -/
def getDaily (today : String) (daily : List (String × Counters)) : Counters :=
  (List.lookup today daily).getD zeroCounters

/-- `bump_daily` adds exactly one to the total and to exactly one of the
correct / wrong / skipped counters, whatever the outcome. -/
theorem bump_daily_counts (today : String) (d : List (String × Counters))
    (cv : Option Bool) (sk u : Bool) :
    (getDaily today (bump_daily today d cv sk u)).total = (getDaily today d).total + 1 ∧
    (((getDaily today (bump_daily today d cv sk u)).correct = (getDaily today d).correct + 1 ∧
      (getDaily today (bump_daily today d cv sk u)).wrong = (getDaily today d).wrong ∧
      (getDaily today (bump_daily today d cv sk u)).skipped = (getDaily today d).skipped) ∨
     ((getDaily today (bump_daily today d cv sk u)).wrong = (getDaily today d).wrong + 1 ∧
      (getDaily today (bump_daily today d cv sk u)).correct = (getDaily today d).correct ∧
      (getDaily today (bump_daily today d cv sk u)).skipped = (getDaily today d).skipped) ∨
     ((getDaily today (bump_daily today d cv sk u)).skipped = (getDaily today d).skipped + 1 ∧
      (getDaily today (bump_daily today d cv sk u)).correct = (getDaily today d).correct ∧
      (getDaily today (bump_daily today d cv sk u)).wrong = (getDaily today d).wrong)) := by
  cases sk with
  | true =>
    refine ⟨?_, Or.inr (Or.inr ⟨?_, ?_, ?_⟩)⟩ <;>
      simp [bump_daily, getDaily, lookup_upsert_self]
  | false =>
    by_cases hcv : cv = some true
    · refine ⟨?_, Or.inl ⟨?_, ?_, ?_⟩⟩ <;>
        cases u <;> simp [bump_daily, getDaily, lookup_upsert_self, hcv]
    · refine ⟨?_, Or.inr (Or.inl ⟨?_, ?_, ?_⟩)⟩ <;>
        cases u <;> simp [bump_daily, getDaily, lookup_upsert_self, hcv]

/-- A question record in the canonical shape the engine consumes
(`canonicalize_question` output; only the fields the engine logic reads). -/
structure Question where
  id : Int
  qtype : String
  question : String
  options : List String
  correct : List Int
  answerType : Option String
deriving DecidableEq, Repr

/-- `is_correct_mc` of `src/app.py` (lines 663-667): multi-answer questions
compare the selection and the correct indices as sets; anything else is
single-answer: exactly one selection, member of the correct set. -/
def is_correct_mc (q : Question) (selected : List Int) : Bool :=
  if q.answerType.getD "single" = "multi" then
    selected.toFinset == q.correct.toFinset
  else
    selected.length == 1 && q.correct.contains (selected.headD 0)

/-- C4: `is_correct_mc(q, selected)` is true iff, in multi mode, the set of
selected indices equals the set of correct indices (unordered), and, in
single mode, exactly one index is selected and it belongs to the correct
indices. -/
theorem C4_is_correct_mc_classification (q : Question) (selected : List Int) :
    (q.answerType.getD "single" = "multi" →
      (is_correct_mc q selected = true ↔ selected.toFinset = q.correct.toFinset)) ∧
    (q.answerType.getD "single" = "single" →
      (is_correct_mc q selected = true ↔ ∃ s, selected = [s] ∧ s ∈ q.correct)) := by
  constructor
  · intro hm
    rw [is_correct_mc, if_pos hm]
    simp
  · intro hs
    rw [is_correct_mc, if_neg (by rw [hs]; decide)]
    cases selected with
    | nil => simp
    | cons a t =>
      cases t with
      | nil => simp
      | cons b t2 => simp

/-- A concrete multi-answer question (correct indices 0 and 3). -/
def mcMultiQ : Question :=
  ⟨1, "mc", "q1", ["a", "b", "c", "d"], [0, 3], some "multi"⟩

/-- A concrete single-answer question (correct index 2). -/
def mcSingleQ : Question :=
  ⟨2, "mc", "q2", ["a", "b", "c"], [2], none⟩

/-- Witness for C4 at concrete inputs: selecting the correct set in multi
mode, and the correct single option in single mode, both score as correct. -/
theorem C4_is_correct_mc_classification_witness :
    is_correct_mc mcMultiQ [3, 0] = true ∧ is_correct_mc mcSingleQ [2] = true := by
  constructor
  · exact ((C4_is_correct_mc_classification mcMultiQ [3, 0]).1 rfl).mpr (by decide)
  · exact ((C4_is_correct_mc_classification mcSingleQ [2]).2 rfl).mpr ⟨2, rfl, by decide⟩

/-- A score-delta event sent to the external leaderboard
(`lb_upsert_daily` with the corresponding delta argument set to 1). -/
inductive Delta where
  | correctDelta
  | wrongDelta
  | skippedDelta
deriving DecidableEq, Repr

/-- The answered-map the current traversal uses for "is this locked" checks
(`src/app.py` lines 813-821): the focus map in focus mode, the practice map
in the wrong-only practice run, else the master map. -/
def active_answered (s : PlayerState) : List (Int × AnswerRec) :=
  if s.mode = "focus_wrong" then s.focus_answered
  else if s.practice_mode = "wrong_only" then s.practice_answered
  else s.answered

/-- The insertion position for a scheduled repeat:
`min(cursor_pos + gap, len(order))` with `gap = int(state.get("sr_gap", 7) or 7)`. -/
def insertAt (sr_gap : Option Int) (ord : List Int) (cursor_pos : Int) : Nat :=
  (min (cursor_pos + (if sr_gap.getD 7 = 0 then 7 else sr_gap.getD 7)) (ord.length : Int)).toNat

/-- `schedule_repeat_if_needed` of `src/app.py` (lines 1131-1152): on a
first-time answer in the active map that was wrong, skipped or unsure, with
fewer than 2 repeats recorded in the incoming payload, and with the question
not already ahead in the order, insert a duplicate of `qid` after a gap and
record the bumped repeat counter in the payload.  Returns the new order and
the mutated payload, or `none` when nothing was scheduled. -/
def schedule_repeat_if_needed (sr_gap : Option Int) (active : List (Int × AnswerRec))
    (ord : List Int) (cursor_pos : Int) (qid : Int) (result : AnswerRec) :
    Option (List Int × AnswerRec) :=
  if List.lookup qid active = none then
    if truthy result.skipped = true ∨ getCorrect result = some false ∨
        truthy result.unsure = true then
      if result.repeats.getD 0 < 2 then
        if qid ∈ ord.drop (cursor_pos.toNat + 1) then none
        else
          some (ord.take (insertAt sr_gap ord cursor_pos)
                  ++ qid :: ord.drop (insertAt sr_gap ord cursor_pos),
                { result with repeats := some (result.repeats.getD 0 + 1) })
      else none
    else none
  else none

/-- The repeat-scheduling step as `persist_and_advance` invokes it: never in
focus mode. -/
def persistSched (s : PlayerState) (ord : List Int) (cursor_pos : Int) (qid : Int)
    (result : AnswerRec) : Option (List Int × AnswerRec) :=
  if s.mode = "focus_wrong" then none
  else schedule_repeat_if_needed s.sr_gap (active_answered s) ord cursor_pos qid result

/-- The payload after the possible in-place repeat-counter mutation performed
by `schedule_repeat_if_needed`. -/
def persistResult1 (s : PlayerState) (ord : List Int) (cursor_pos : Int) (qid : Int)
    (result : AnswerRec) : AnswerRec :=
  ((persistSched s ord cursor_pos qid result).map Prod.snd).getD result

/-- The merge of the stored record with the (possibly mutated) payload
(`merged = {**prev, **result_dict}`). -/
def persistMerged0 (s : PlayerState) (ord : List Int) (cursor_pos : Int) (qid : Int)
    (result : AnswerRec) : AnswerRec :=
  mergeRec ((List.lookup qid s.answered).getD emptyRec)
    (persistResult1 s ord cursor_pos qid result)

/-- The merged record, with `mastered = True` added when a focus-mode retry is
newly correct and neither skipped nor unsure. -/
def persistMerged (s : PlayerState) (ord : List Int) (cursor_pos : Int) (qid : Int)
    (result : AnswerRec) : AnswerRec :=
  if s.mode = "focus_wrong"
      ∧ getCorrect (persistMerged0 s ord cursor_pos qid result) = some true
      ∧ truthy (persistMerged0 s ord cursor_pos qid result).skipped = false
      ∧ truthy (persistMerged0 s ord cursor_pos qid result).unsure = false then
    { persistMerged0 s ord cursor_pos qid result with mastered := some true }
  else persistMerged0 s ord cursor_pos qid result

/-- `persist_and_advance` of `src/app.py` (lines 1119-1205).  `ord` and
`cursor_pos` are the effective order and clamped cursor position the
enclosing script computed (the closure captures them), `qid` the current
question id and `result` the payload of the submitted answer.  Returns the
new state and the list of score-delta events sent to the leaderboard. -/
def persist_and_advance (today : String) (s : PlayerState) (ord : List Int)
    (cursor_pos : Int) (qid : Int) (result : AnswerRec) : PlayerState × List Delta :=
  let merged := persistMerged s ord cursor_pos qid result
  let s1 := { s with
                order := ((persistSched s ord cursor_pos qid result).map Prod.fst).getD s.order,
                answered := upsert qid merged s.answered }
  let s2 :=
    if s.mode = "focus_wrong" then
      { s1 with focus_answered := upsert qid merged s1.focus_answered }
    else if s.practice_mode = "wrong_only" then
      { s1 with practice_answered := upsert qid merged s1.practice_answered }
    else s1
  let s3 :=
    if s.mode = "focus_wrong" then
      { s2 with focus_cursor := min (s.focus_cursor + 1) (ord.length : Int) }
    else
      { s2 with cursor := min (cursor_pos + 1) (ord.length : Int) }
  if List.lookup qid s.answered = none ∧ ¬ s.practice_mode = "wrong_only"
      ∧ ¬ s.mode = "focus_wrong" then
    ({ s3 with
         daily := bump_daily today s3.daily
           (getCorrect (persistResult1 s ord cursor_pos qid result))
           (truthy (persistResult1 s ord cursor_pos qid result).skipped)
           (truthy (persistResult1 s ord cursor_pos qid result).unsure) },
     if truthy (persistResult1 s ord cursor_pos qid result).skipped = true then
       [Delta.skippedDelta]
     else if getCorrect (persistResult1 s ord cursor_pos qid result) = some true then
       [Delta.correctDelta]
     else if getCorrect (persistResult1 s ord cursor_pos qid result) = some false then
       [Delta.wrongDelta]
     else [])
  else (s3, [])

/-- On a first-time-ever submission outside focus and practice modes,
`persist_and_advance` applies `bump_daily` to an otherwise untouched daily
map and emits the one delta matching the outcome. -/
theorem persist_first_effects (today : String) (s : PlayerState) (ord : List Int)
    (cursor_pos : Int) (qid : Int) (result : AnswerRec)
    (hmode : s.mode ≠ "focus_wrong") (hpr : s.practice_mode ≠ "wrong_only")
    (hfirst : List.lookup qid s.answered = none) :
    (persist_and_advance today s ord cursor_pos qid result).1.daily
      = bump_daily today s.daily
          (getCorrect (persistResult1 s ord cursor_pos qid result))
          (truthy (persistResult1 s ord cursor_pos qid result).skipped)
          (truthy (persistResult1 s ord cursor_pos qid result).unsure) ∧
    (persist_and_advance today s ord cursor_pos qid result).2
      = (if truthy (persistResult1 s ord cursor_pos qid result).skipped = true then
           [Delta.skippedDelta]
         else if getCorrect (persistResult1 s ord cursor_pos qid result) = some true then
           [Delta.correctDelta]
         else if getCorrect (persistResult1 s ord cursor_pos qid result) = some false then
           [Delta.wrongDelta]
         else []) := by
  unfold persist_and_advance
  rw [if_pos ⟨hfirst, hpr, hmode⟩]
  rw [if_neg hmode, if_neg hmode, if_neg hpr]
  exact ⟨rfl, rfl⟩

/-- `persist_and_advance` always records the merged answer under `qid` in the
master answered map. -/
theorem persist_answered_eq (today : String) (s : PlayerState) (ord : List Int)
    (cursor_pos : Int) (qid : Int) (result : AnswerRec) :
    (persist_and_advance today s ord cursor_pos qid result).1.answered
      = upsert qid (persistMerged s ord cursor_pos qid result) s.answered := by
  unfold persist_and_advance
  split_ifs <;> rfl

/-- For an already-answered question (present in the master map),
`persist_and_advance` leaves the daily statistics untouched and emits no
delta. -/
theorem persist_locked_no_bump (today : String) (t : PlayerState) (ord : List Int)
    (cursor_pos : Int) (qid : Int) (result : AnswerRec)
    (h : List.lookup qid t.answered ≠ none) :
    (persist_and_advance today t ord cursor_pos qid result).1.daily = t.daily ∧
    (persist_and_advance today t ord cursor_pos qid result).2 = [] := by
  unfold persist_and_advance
  rw [if_neg (by intro hc; exact h hc.1)]
  constructor
  · split_ifs <;> rfl
  · rfl

/-- The repeat-counter mutation of `schedule_repeat_if_needed` touches only
the `repeats` field of the payload. -/
theorem persistResult1_preserves (s : PlayerState) (ord : List Int) (cursor_pos : Int)
    (qid : Int) (r : AnswerRec) :
    (persistResult1 s ord cursor_pos qid r).skipped = r.skipped ∧
    (persistResult1 s ord cursor_pos qid r).correct = r.correct ∧
    (persistResult1 s ord cursor_pos qid r).unsure = r.unsure := by
  unfold persistResult1 persistSched schedule_repeat_if_needed
  split_ifs <;> simp

/-- The payload of a submitted multiple-choice answer (`src/app.py` lines
1341-1355). -/
def mc_submit_payload (ts : String) (correct : Bool) (selected : List Int)
    (unsure : Bool) : AnswerRec :=
  ⟨some ts, some (some correct), some (some selected), none, none, some unsure, none, none⟩

/-- The payload of skipping a multiple-choice question (`src/app.py` lines
1357-1369). -/
def mc_skip_payload (ts : String) : AnswerRec :=
  ⟨some ts, some (some false), some none, none, some true, none, none, none⟩

/-- The payload of an answered open-type question (`src/app.py` lines
1387-1399): the `correct` key is present with value `None`. -/
def open_submit_payload (ts : String) (txt : String) (unsure : Bool) : AnswerRec :=
  ⟨some ts, some none, none, some (some txt), none, some unsure, none, none⟩

/-- The payload of skipping an open-type question (`src/app.py` lines
1401-1413). -/
def open_skip_payload (ts : String) : AnswerRec :=
  ⟨some ts, some none, none, some none, some true, none, none, none⟩

/-- C3: on a first-time-ever submission in normal mode (not focus, not
wrong-only practice, `qid` not yet in the master answered map),
`persist_and_advance` adds exactly 1 to today's total and to exactly one of
the correct / wrong / skipped counters, records `qid` in the master map, and
any later submission for the same `qid` (in whatever mode, e.g. a focus-mode
retry) leaves the daily statistics unchanged. -/
theorem C3_first_time_daily_counting (today : String) (s : PlayerState) (ord : List Int)
    (cursor_pos : Int) (qid : Int) (result : AnswerRec)
    (hmode : s.mode ≠ "focus_wrong") (hpr : s.practice_mode ≠ "wrong_only")
    (hfirst : List.lookup qid s.answered = none) :
    (getDaily today (persist_and_advance today s ord cursor_pos qid result).1.daily).total
      = (getDaily today s.daily).total + 1 ∧
    (((getDaily today (persist_and_advance today s ord cursor_pos qid result).1.daily).correct
        = (getDaily today s.daily).correct + 1 ∧
      (getDaily today (persist_and_advance today s ord cursor_pos qid result).1.daily).wrong
        = (getDaily today s.daily).wrong ∧
      (getDaily today (persist_and_advance today s ord cursor_pos qid result).1.daily).skipped
        = (getDaily today s.daily).skipped) ∨
     ((getDaily today (persist_and_advance today s ord cursor_pos qid result).1.daily).wrong
        = (getDaily today s.daily).wrong + 1 ∧
      (getDaily today (persist_and_advance today s ord cursor_pos qid result).1.daily).correct
        = (getDaily today s.daily).correct ∧
      (getDaily today (persist_and_advance today s ord cursor_pos qid result).1.daily).skipped
        = (getDaily today s.daily).skipped) ∨
     ((getDaily today (persist_and_advance today s ord cursor_pos qid result).1.daily).skipped
        = (getDaily today s.daily).skipped + 1 ∧
      (getDaily today (persist_and_advance today s ord cursor_pos qid result).1.daily).correct
        = (getDaily today s.daily).correct ∧
      (getDaily today (persist_and_advance today s ord cursor_pos qid result).1.daily).wrong
        = (getDaily today s.daily).wrong)) ∧
    List.lookup qid (persist_and_advance today s ord cursor_pos qid result).1.answered ≠ none ∧
    (∀ (t : PlayerState) (ord2 : List Int) (cp2 : Int) (r2 : AnswerRec),
      List.lookup qid t.answered ≠ none →
      (persist_and_advance today t ord2 cp2 qid r2).1.daily = t.daily) := by
  have hd := (persist_first_effects today s ord cursor_pos qid result hmode hpr hfirst).1
  refine ⟨?_, ?_, ?_, ?_⟩
  · rw [hd]
    exact (bump_daily_counts today s.daily _ _ _).1
  · rw [hd]
    exact (bump_daily_counts today s.daily _ _ _).2
  · rw [persist_answered_eq, lookup_upsert_self]
    simp
  · intro t ord2 cp2 r2 ht
    exact (persist_locked_no_bump today t ord2 cp2 qid r2 ht).1

/-- A concrete pre-submission state for the C3 witness. -/
def c3S : PlayerState :=
  { initState "alice" with order_date := "2024-01-01#0", order := [1, 2] }

/-- Witness for C3 at a concrete input: answering question 1 wrong the first
time adds 1 to today's total, and a resubmission of question 1 on the
resulting state leaves the daily statistics unchanged. -/
theorem C3_first_time_daily_counting_witness :
    (getDaily "2024-01-01"
        (persist_and_advance "2024-01-01" c3S [1, 2] 0 1
          (mc_submit_payload "t1" false [0] false)).1.daily).total
      = (getDaily "2024-01-01" c3S.daily).total + 1 ∧
    (persist_and_advance "2024-01-01"
        (persist_and_advance "2024-01-01" c3S [1, 2] 0 1
          (mc_submit_payload "t1" false [0] false)).1 [1, 2] 0 1
        (mc_submit_payload "t2" false [0] false)).1.daily
      = (persist_and_advance "2024-01-01" c3S [1, 2] 0 1
          (mc_submit_payload "t1" false [0] false)).1.daily := by
  have h := C3_first_time_daily_counting "2024-01-01" c3S [1, 2] 0 1
    (mc_submit_payload "t1" false [0] false) (by decide) (by decide) (by decide)
  exact ⟨h.1, h.2.2.2 _ [1, 2] 0 (mc_submit_payload "t2" false [0] false) h.2.2.1⟩

/-- C6: answering inside focus-review mode never mutates the daily statistics
and never emits a leaderboard delta; the lock entry goes to the focus map
(the master map's key set — which drives the normal-mode lock — is unchanged,
though its content for `qid` is merged), and the normal order and cursor are
untouched. -/
theorem C6_focus_mode_isolation (today : String) (s : PlayerState) (ord : List Int)
    (cursor_pos : Int) (qid : Int) (result : AnswerRec)
    (hfocus : s.mode = "focus_wrong")
    (hq : List.lookup qid s.answered ≠ none) :
    (persist_and_advance today s ord cursor_pos qid result).1.daily = s.daily ∧
    (persist_and_advance today s ord cursor_pos qid result).2 = [] ∧
    (∀ k : Int, List.lookup k (persist_and_advance today s ord cursor_pos qid result).1.answered = none
        ↔ List.lookup k s.answered = none) ∧
    List.lookup qid (persist_and_advance today s ord cursor_pos qid result).1.focus_answered
      ≠ none ∧
    (persist_and_advance today s ord cursor_pos qid result).1.order = s.order ∧
    (persist_and_advance today s ord cursor_pos qid result).1.cursor = s.cursor := by
  have hnb := persist_locked_no_bump today s ord cursor_pos qid result hq
  refine ⟨hnb.1, hnb.2, ?_, ?_, ?_, ?_⟩
  · intro k
    rw [persist_answered_eq]
    by_cases hk : k = qid
    · subst hk
      rw [lookup_upsert_self]
      simp [hq]
    · rw [lookup_upsert_ne _ _ _ _ hk]
  · unfold persist_and_advance
    rw [if_neg (fun hc => hc.2.2 hfocus)]
    rw [if_pos hfocus, if_pos hfocus]
    rw [lookup_upsert_self]
    simp
  · unfold persist_and_advance
    rw [if_neg (fun hc => hc.2.2 hfocus)]
    rw [if_pos hfocus, if_pos hfocus]
    show ((persistSched s ord cursor_pos qid result).map Prod.fst).getD s.order = s.order
    unfold persistSched
    rw [if_pos hfocus]
    rfl
  · unfold persist_and_advance
    rw [if_neg (fun hc => hc.2.2 hfocus)]
    rw [if_pos hfocus, if_pos hfocus]

/-- A concrete focus-mode state for the C6 witness: question 7 was answered
wrong in normal mode, then focus mode was entered. -/
def c6S : PlayerState :=
  { initState "alice" with
      order_date := "2024-01-01#0", order := [7, 8], cursor := 2,
      answered := [(7, mc_submit_payload "t1" false [0] false),
                   (8, mc_submit_payload "t1" true [1] false)],
      daily := [("2024-01-01", ⟨1, 1, 0, 0, 2⟩)],
      mode := "focus_wrong", focus_order := [7], focus_cursor := 0,
      focus_answered := [], resume_cursor := 2 }

/-- Witness for C6 at a concrete input: retrying question 7 correctly in
focus mode leaves the daily statistics, the master key set, and the normal
order and cursor unchanged, emits no delta, and records the retry in the
focus map. -/
theorem C6_focus_mode_isolation_witness :
    (persist_and_advance "2024-01-01" c6S [7] 0 7
        (mc_submit_payload "t2" true [1] false)).1.daily = c6S.daily ∧
    (persist_and_advance "2024-01-01" c6S [7] 0 7
        (mc_submit_payload "t2" true [1] false)).2 = [] ∧
    (List.lookup 9 (persist_and_advance "2024-01-01" c6S [7] 0 7
        (mc_submit_payload "t2" true [1] false)).1.answered = none
      ↔ List.lookup 9 c6S.answered = none) ∧
    List.lookup 7 (persist_and_advance "2024-01-01" c6S [7] 0 7
        (mc_submit_payload "t2" true [1] false)).1.focus_answered ≠ none ∧
    (persist_and_advance "2024-01-01" c6S [7] 0 7
        (mc_submit_payload "t2" true [1] false)).1.order = c6S.order ∧
    (persist_and_advance "2024-01-01" c6S [7] 0 7
        (mc_submit_payload "t2" true [1] false)).1.cursor = c6S.cursor := by
  have h := C6_focus_mode_isolation "2024-01-01" c6S [7] 0 7
    (mc_submit_payload "t2" true [1] false) (by decide) (by decide)
  exact ⟨h.1, h.2.1, h.2.2.1 9, h.2.2.2.1, h.2.2.2.2.1, h.2.2.2.2.2⟩

/-- C10: a first-time submission of an answered (not skipped) open-type
question carries `correct = None` in its payload; `bump_daily` then adds 1 to
both today's total and today's wrong counter (leaving correct and skipped
unchanged), and no delta at all is sent to the leaderboard, because a delta
is emitted only when `correct` is exactly `True` or exactly `False`, or the
answer was skipped. -/
theorem C10_open_question_counts_wrong_no_delta (today ts txt : String) (u : Bool)
    (s : PlayerState) (ord : List Int) (cursor_pos : Int) (qid : Int)
    (hmode : s.mode ≠ "focus_wrong") (hpr : s.practice_mode ≠ "wrong_only")
    (hfirst : List.lookup qid s.answered = none) :
    (open_submit_payload ts txt u).correct = some none ∧
    (open_submit_payload ts txt u).skipped = none ∧
    (getDaily today (persist_and_advance today s ord cursor_pos qid
        (open_submit_payload ts txt u)).1.daily).total
      = (getDaily today s.daily).total + 1 ∧
    (getDaily today (persist_and_advance today s ord cursor_pos qid
        (open_submit_payload ts txt u)).1.daily).wrong
      = (getDaily today s.daily).wrong + 1 ∧
    (getDaily today (persist_and_advance today s ord cursor_pos qid
        (open_submit_payload ts txt u)).1.daily).correct
      = (getDaily today s.daily).correct ∧
    (getDaily today (persist_and_advance today s ord cursor_pos qid
        (open_submit_payload ts txt u)).1.daily).skipped
      = (getDaily today s.daily).skipped ∧
    (persist_and_advance today s ord cursor_pos qid (open_submit_payload ts txt u)).2
      = [] := by
  have hp := persistResult1_preserves s ord cursor_pos qid (open_submit_payload ts txt u)
  have he := persist_first_effects today s ord cursor_pos qid (open_submit_payload ts txt u)
    hmode hpr hfirst
  have hsk : truthy (persistResult1 s ord cursor_pos qid (open_submit_payload ts txt u)).skipped
      = false := by
    rw [hp.1]
    rfl
  have hcv : getCorrect (persistResult1 s ord cursor_pos qid (open_submit_payload ts txt u))
      = none := by
    unfold getCorrect
    rw [hp.2.1]
    rfl
  have hu : truthy (persistResult1 s ord cursor_pos qid (open_submit_payload ts txt u)).unsure
      = u := by
    rw [hp.2.2]
    rfl
  refine ⟨rfl, rfl, ?_, ?_, ?_, ?_, ?_⟩
  · rw [he.1, hsk, hcv, hu]
    cases u <;> simp [bump_daily, getDaily, lookup_upsert_self]
  · rw [he.1, hsk, hcv, hu]
    cases u <;> simp [bump_daily, getDaily, lookup_upsert_self]
  · rw [he.1, hsk, hcv, hu]
    cases u <;> simp [bump_daily, getDaily, lookup_upsert_self]
  · rw [he.1, hsk, hcv, hu]
    cases u <;> simp [bump_daily, getDaily, lookup_upsert_self]
  · rw [he.2, hsk, hcv]
    simp

/-- Witness for C10 at a concrete input: answering open question 3 for the
first time bumps total and wrong and sends nothing to the leaderboard. -/
theorem C10_open_question_counts_wrong_no_delta_witness :
    (getDaily "2024-01-01" (persist_and_advance "2024-01-01"
        { initState "bob" with order_date := "2024-01-01#0", order := [3] } [3] 0 3
        (open_submit_payload "t1" "my answer" false)).1.daily).total
      = (getDaily "2024-01-01"
          ({ initState "bob" with order_date := "2024-01-01#0", order := [3] }
            : PlayerState).daily).total + 1 ∧
    (getDaily "2024-01-01" (persist_and_advance "2024-01-01"
        { initState "bob" with order_date := "2024-01-01#0", order := [3] } [3] 0 3
        (open_submit_payload "t1" "my answer" false)).1.daily).wrong
      = (getDaily "2024-01-01"
          ({ initState "bob" with order_date := "2024-01-01#0", order := [3] }
            : PlayerState).daily).wrong + 1 ∧
    (persist_and_advance "2024-01-01"
        { initState "bob" with order_date := "2024-01-01#0", order := [3] } [3] 0 3
        (open_submit_payload "t1" "my answer" false)).2 = [] := by
  have h := C10_open_question_counts_wrong_no_delta "2024-01-01" "t1" "my answer" false
    { initState "bob" with order_date := "2024-01-01#0", order := [3] } [3] 0 3
    (by decide) (by decide) (by decide)
  exact ⟨h.2.2.1, h.2.2.2.1, h.2.2.2.2.2.2⟩

/-- The "reshuffle-all" button handler of `src/app.py` (lines 1031-1055):
clear the master answered map, zero today's counters, leave special modes,
drop the focus/practice bookkeeping, bump the shuffle nonce, regenerate the
order and reset the cursor.  It makes no leaderboard call, so the emitted
delta list is empty. -/
def reshuffle_all (today player : String) (s : PlayerState) (ids : List Int) :
    PlayerState × List Delta :=
  ({ ensure_daily_order today
      { s with answered := [],
               daily := upsert today zeroCounters s.daily,
               mode := "normal",
               practice_mode := "all",
               focus_order := [], focus_cursor := 0, resume_cursor := 0,
               practice_answered := [],
               shuffle_nonce := s.shuffle_nonce + 1 }
      player ids with cursor := 0 }, [])

/-- The effective order the page works with (`src/app.py` lines 765, 808-811):
the focus order in focus mode, else the stored order with a fallback to the
current ids when the stored order is empty. -/
def effective_order (s : PlayerState) (ids : List Int) : List Int :=
  if s.mode = "focus_wrong" then s.focus_order
  else if s.order = [] then ids else s.order

/-- The effective clamped cursor position (`src/app.py` lines 766-768,
808-811). -/
def effective_cursor (s : PlayerState) (ids : List Int) : Int :=
  if s.mode = "focus_wrong" then
    max 0 (min s.focus_cursor ((s.focus_order).length : Int))
  else
    max 0 (min s.cursor (((if s.order = [] then ids else s.order)).length : Int))

/-- The back-navigation button (`src/app.py` lines 1067-1070). -/
def nav_back (s : PlayerState) (ids : List Int) : PlayerState :=
  { s with cursor := max 0 (effective_cursor s ids - 1) }

/-- The forward / finish button (`src/app.py` lines 1074-1082): step forward,
or jump to `len(order)` ("run complete") from the last position. -/
def nav_forward (s : PlayerState) (ids : List Int) : PlayerState :=
  { s with cursor :=
      if ((effective_order s ids).length : Int) - 1 ≤ effective_cursor s ids then
        ((effective_order s ids).length : Int)
      else effective_cursor s ids + 1 }

/-- The jump-to-end button (`src/app.py` lines 1084-1088). -/
def nav_end (s : PlayerState) (ids : List Int) : PlayerState :=
  { s with cursor := ((effective_order s ids).length : Int) }

/-- The cursor-only reset button (`src/app.py` lines 754-757). -/
def reset_cursor (s : PlayerState) : PlayerState :=
  { s with cursor := 0 }

/-- The full-reset button (`src/app.py` lines 758-763): replace the state
with the fresh skeleton. -/
def full_reset (player : String) : PlayerState :=
  initState player

/-- The wrong / skipped / unsure ids collected on the finish screen
(`src/app.py` lines 908-913), in order, duplicates included. -/
def compute_wrong_ids (ord : List Int) (answered : List (Int × AnswerRec)) : List Int :=
  ord.filter (fun qid0 =>
    decide (((List.lookup qid0 answered).getD emptyRec).skipped = some true) ||
    decide (((List.lookup qid0 answered).getD emptyRec).correct = some (some false)) ||
    decide (((List.lookup qid0 answered).getD emptyRec).unsure = some true))

/-- The "practice only the wrong ones" button on the finish screen
(`src/app.py` lines 1018-1026): fresh practice map, order reshuffled from the
wrong ids under the wrong-marker key, cursor reset. -/
def enter_practice (player : String) (s : PlayerState) (ord : List Int) : PlayerState :=
  { s with practice_mode := "wrong_only",
           practice_answered := [],
           order := deterministic_shuffle player (s.order_date ++ "|wrong")
                      (compute_wrong_ids ord s.answered),
           cursor := 0 }

/-- C8: after reshuffle-all the cursor is 0, today's counters are all zero,
the order is a fresh permutation of the current question ids (previously
scheduled duplicates are gone), the answered map is empty, the daily entries
of every other day are untouched, and no delta is sent to the leaderboard. -/
theorem C8_reshuffle_all_reset (today player : String) (s : PlayerState) (ids : List Int)
    (hdate : s.order_date ≠ today ++ "#" ++ toString (s.shuffle_nonce + 1)) :
    (reshuffle_all today player s ids).1.cursor = 0 ∧
    getDaily today (reshuffle_all today player s ids).1.daily = zeroCounters ∧
    ((reshuffle_all today player s ids).1.order).Perm ids ∧
    (reshuffle_all today player s ids).1.answered = [] ∧
    (∀ d : String, d ≠ today →
      List.lookup d (reshuffle_all today player s ids).1.daily = List.lookup d s.daily) ∧
    (reshuffle_all today player s ids).2 = [] := by
  unfold reshuffle_all ensure_daily_order
  rw [if_pos (Or.inl hdate)]
  refine ⟨rfl, ?_, ?_, rfl, ?_, rfl⟩
  · simp [getDaily, lookup_upsert_self]
  · exact fisherYates_perm _ ids
  · intro d hd
    exact lookup_upsert_ne _ _ _ _ hd

/-- A concrete state (one answered question, an extra scheduled duplicate in
the order, counters for two days) for the C8 witness. -/
def c8S : PlayerState :=
  { initState "alice" with
      order_date := "2024-01-02#0", order := [2, 1, 2], cursor := 2,
      answered := [(2, mc_submit_payload "t1" false [0] false)],
      daily := [("2024-01-01", ⟨3, 1, 0, 0, 4⟩), ("2024-01-02", ⟨1, 1, 0, 0, 2⟩)] }

/-- Witness for C8 at a concrete input: reshuffling everything on 2024-01-02
resets the cursor and today's counters, restores a permutation of the ids,
empties the answered map, keeps 2024-01-01 untouched, and sends nothing. -/
theorem C8_reshuffle_all_reset_witness :
    (reshuffle_all "2024-01-02" "alice" c8S [1, 2]).1.cursor = 0 ∧
    getDaily "2024-01-02" (reshuffle_all "2024-01-02" "alice" c8S [1, 2]).1.daily
      = zeroCounters ∧
    ((reshuffle_all "2024-01-02" "alice" c8S [1, 2]).1.order).Perm [1, 2] ∧
    (reshuffle_all "2024-01-02" "alice" c8S [1, 2]).1.answered = [] ∧
    List.lookup "2024-01-01" (reshuffle_all "2024-01-02" "alice" c8S [1, 2]).1.daily
      = List.lookup "2024-01-01" c8S.daily ∧
    (reshuffle_all "2024-01-02" "alice" c8S [1, 2]).2 = [] := by
  have h := C8_reshuffle_all_reset "2024-01-02" "alice" c8S [1, 2] (by decide)
  exact ⟨h.1, h.2.1, h.2.2.1, h.2.2.2.1, h.2.2.2.2.1 "2024-01-01" (by decide), h.2.2.2.2.2⟩

/-- The cursor invariant of the spec: `0 <= cursor <= len(order)`, with
`cursor == len(order)` meaning "run complete". -/
def cursorInv (s : PlayerState) : Prop :=
  0 ≤ s.cursor ∧ s.cursor ≤ (s.order.length : Int)

instance (s : PlayerState) : Decidable (cursorInv s) := by
  unfold cursorInv
  infer_instance

/-- The repeat-insertion position never exceeds the order length. -/
theorem insertAt_le (g : Option Int) (ord : List Int) (cp : Int) :
    insertAt g ord cp ≤ ord.length := by
  unfold insertAt
  exact Int.toNat_le.mpr (min_le_right _ _)

/-- When a repeat actually gets scheduled, the new order is one longer than
the captured order. -/
theorem persistSched_some_length (s : PlayerState) (ord : List Int) (cp : Int)
    (qid : Int) (r : AnswerRec) (p : List Int × AnswerRec)
    (h : persistSched s ord cp qid r = some p) : p.1.length = ord.length + 1 := by
  unfold persistSched schedule_repeat_if_needed at h
  split_ifs at h
  all_goals first
    | exact Option.noConfusion h
    | · obtain rfl := Option.some.inj h
        have hle := insertAt_le s.sr_gap ord cp
        simp [List.length_append, List.length_take, List.length_drop]
        omega

/-- In focus mode, `persist_and_advance` leaves the normal cursor and order
alone. -/
theorem persist_frame_focus (today : String) (s : PlayerState) (ord : List Int)
    (cp : Int) (qid : Int) (r : AnswerRec) (hf : s.mode = "focus_wrong") :
    (persist_and_advance today s ord cp qid r).1.cursor = s.cursor ∧
    (persist_and_advance today s ord cp qid r).1.order = s.order := by
  unfold persist_and_advance
  rw [if_neg (fun hc => hc.2.2 hf), if_pos hf, if_pos hf]
  constructor
  · rfl
  · show ((persistSched s ord cp qid r).map Prod.fst).getD s.order = s.order
    unfold persistSched
    rw [if_pos hf]
    rfl

/-- Outside focus mode, `persist_and_advance` moves the cursor to
`min(cursor_pos + 1, len(order))` and either keeps the order or inserts
exactly one scheduled repeat. -/
theorem persist_frame_normal (today : String) (s : PlayerState) (ord : List Int)
    (cp : Int) (qid : Int) (r : AnswerRec) (hf : s.mode ≠ "focus_wrong") :
    (persist_and_advance today s ord cp qid r).1.cursor = min (cp + 1) (ord.length : Int) ∧
    ((persist_and_advance today s ord cp qid r).1.order = s.order ∨
     (persist_and_advance today s ord cp qid r).1.order.length = ord.length + 1) := by
  simp only [persist_and_advance]
  rw [if_neg hf, if_neg hf]
  constructor
  · split_ifs <;> rfl
  · cases hs : persistSched s ord cp qid r with
    | none =>
      left
      split_ifs <;> rfl
    | some p =>
      right
      split_ifs <;> exact persistSched_some_length s ord cp qid r p hs

/-- The effective cursor is clamped into the effective order's range. -/
theorem effective_cursor_bounds (s : PlayerState) (ids : List Int) :
    0 ≤ effective_cursor s ids ∧
    effective_cursor s ids ≤ ((effective_order s ids).length : Int) := by
  unfold effective_cursor effective_order
  split_ifs <;> constructor <;> omega

/-- The effective order is never longer than the stored order, given that an
empty stored order only happens for an empty dataset and that the focus order
is a selection from the stored order. -/
theorem effective_order_length_le (s : PlayerState) (ids : List Int)
    (hemp : s.order = [] → ids = [])
    (hfo : s.mode = "focus_wrong" → s.focus_order.length ≤ s.order.length) :
    (effective_order s ids).length ≤ s.order.length := by
  unfold effective_order
  split_ifs with h1 h2
  · exact hfo h1
  · rw [hemp h2, h2]
  · exact Nat.le_refl _

/-- C9: the cursor invariant `0 <= cursor <= len(order)` is established by
`ensure_daily_order` and preserved by answer submission, by the
back / forward / end navigation buttons, and by the reset actions
(cursor-only reset, full reset, reshuffle-all).  For submission, `ord` is the
captured effective order (the stored order outside focus mode); for
navigation in focus mode, the focus order is never longer than the stored
order (it is a de-duplicated selection from it). -/
theorem C9_cursor_invariant (today player : String) (s : PlayerState) (ids ord : List Int)
    (cp : Int) (qid : Int) (r : AnswerRec) :
    cursorInv (ensure_daily_order today s player ids) ∧
    (cursorInv s → 0 ≤ cp → (s.mode ≠ "focus_wrong" → ord = s.order) →
      cursorInv (persist_and_advance today s ord cp qid r).1) ∧
    (cursorInv s → (s.order = [] → ids = []) →
      (s.mode = "focus_wrong" → s.focus_order.length ≤ s.order.length) →
      cursorInv (nav_back s ids) ∧ cursorInv (nav_forward s ids) ∧
        cursorInv (nav_end s ids)) ∧
    cursorInv (reset_cursor s) ∧
    cursorInv (full_reset player) ∧
    cursorInv (reshuffle_all today player s ids).1 := by
  refine ⟨?_, ?_, ?_, ?_, ?_, ?_⟩
  · unfold ensure_daily_order cursorInv
    split_ifs <;> constructor <;> dsimp only <;> omega
  · intro hInv hcp hord
    by_cases hf : s.mode = "focus_wrong"
    · have hframe := persist_frame_focus today s ord cp qid r hf
      unfold cursorInv at hInv ⊢
      rw [hframe.1, hframe.2]
      exact hInv
    · have hframe := persist_frame_normal today s ord cp qid r hf
      have hordeq := hord hf
      subst hordeq
      unfold cursorInv at hInv ⊢
      rw [hframe.1]
      rcases hframe.2 with ho | ho
      · rw [ho]
        omega
      · constructor
        · omega
        · have hlen := ho
          omega
  · intro hInv hemp hfo
    unfold cursorInv at hInv
    have hb := effective_cursor_bounds s ids
    have hl := effective_order_length_le s ids hemp hfo
    refine ⟨?_, ?_, ?_⟩
    · unfold cursorInv nav_back
      constructor <;> dsimp only <;> omega
    · unfold cursorInv nav_forward
      constructor <;> dsimp only <;> split_ifs <;> omega
    · unfold cursorInv nav_end
      constructor <;> dsimp only <;> omega
  · unfold cursorInv reset_cursor
    constructor <;> dsimp only <;> omega
  · unfold cursorInv full_reset initState
    constructor <;> dsimp only <;> omega
  · unfold cursorInv reshuffle_all
    constructor <;> dsimp only <;> omega

/-- Witness for C9 at a concrete input: submitting an answer on a concrete
valid state keeps the cursor inside `[0, len(order)]`. -/
theorem C9_cursor_invariant_witness :
    cursorInv (ensure_daily_order "2024-01-01" c3S "alice" [1, 2]) ∧
    cursorInv (persist_and_advance "2024-01-01" c3S [1, 2] 0 1
        (mc_submit_payload "t1" false [0] false)).1 ∧
    cursorInv (nav_forward c3S [1, 2]) := by
  have h := C9_cursor_invariant "2024-01-01" "alice" c3S [1, 2] [1, 2] 0 1
    (mc_submit_payload "t1" false [0] false)
  exact ⟨h.1, h.2.1 (by decide) (by decide) (by decide),
    (h.2.2.1 (by decide) (by decide) (by decide)).2.1⟩

/-- A wrong multiple-choice submission payload used in the C7 trace. -/
def c7Wrong (ts : String) : AnswerRec :=
  mc_submit_payload ts false [0] false

/-- C7 trace, step 0: a fresh player on a one-question dataset; the daily
order is `[1]`. -/
def c7S0 : PlayerState :=
  ensure_daily_order "2024-01-01" (initState "alice") "alice" [1]

/-- C7 trace, step 1: question 1 is answered wrong in normal mode; a first
repeat is scheduled (`order = [1, 1]`). -/
def c7S1 : PlayerState :=
  (persist_and_advance "2024-01-01" c7S0 (effective_order c7S0 [1])
    (effective_cursor c7S0 [1]) 1 (c7Wrong "t1")).1

/-- C7 trace, step 2: jump to the finish screen. -/
def c7S2 : PlayerState :=
  nav_end c7S1 [1]

/-- C7 trace, step 3: start the wrong-only practice run (fresh practice map,
order reshuffled from the wrong ids). -/
def c7S3 : PlayerState :=
  enter_practice "alice" c7S2 (effective_order c7S2 [1])

/-- C7 trace, step 4: navigate forward to the last occurrence of question 1
in the practice order. -/
def c7S4 : PlayerState :=
  nav_forward c7S3 [1]

/-- C7 trace, step 5: question 1 is answered wrong again in the practice run;
a second repeat is scheduled (`order = [1, 1, 1]`). -/
def c7S5 : PlayerState :=
  (persist_and_advance "2024-01-01" c7S4 (effective_order c7S4 [1])
    (effective_cursor c7S4 [1]) 1 (c7Wrong "t2")).1

/-- C7 trace, step 6: jump to the finish screen again. -/
def c7S6 : PlayerState :=
  nav_end c7S5 [1]

/-- C7 trace, step 7: start a second wrong-only practice run. -/
def c7S7 : PlayerState :=
  enter_practice "alice" c7S6 (effective_order c7S6 [1])

/-- C7 trace, step 8: navigate forward once. -/
def c7S8 : PlayerState :=
  nav_forward c7S7 [1]

/-- C7 trace, step 9: navigate forward to the last occurrence of question 1. -/
def c7S9 : PlayerState :=
  nav_forward c7S8 [1]

/-- C7 trace, step 10: question 1 is answered wrong a third separate time; a
THIRD repeat is scheduled (`order = [1, 1, 1, 1]`). -/
def c7S10 : PlayerState :=
  (persist_and_advance "2024-01-01" c7S9 (effective_order c7S9 [1])
    (effective_cursor c7S9 [1]) 1 (c7Wrong "t3")).1

/-- C7 fails on the code: along a reachable interaction trace (answer
question 1 wrong, then answer it wrong once in each of two successive
wrong-only practice runs), a repeat duplicate of question 1 is scheduled into
the order three separate times — the occurrence count of id 1 in the order
grows 1 → 2 → 3 → 4 — although the claim (and the spec's §4.4) bound the total
at 2.  The cause is that `schedule_repeat_if_needed` reads the repeat counter
from the incoming payload (`result_dict.get("repeats")`, which the submit
handlers never populate, hence always 0) instead of the stored
`answered[qid]` record where the code itself persists the counter: the last
conjunct shows the stored counter is still 1 after the third scheduling, so
the `repeats >= 2` guard can never fire. -/
theorem C7_third_repeat_scheduled_despite_bound :
    c7S0.order = [1] ∧
    List.count 1 c7S1.order = 2 ∧
    List.count 1 c7S5.order = 3 ∧
    List.count 1 c7S10.order = 4 ∧
    ((List.lookup 1 c7S10.answered).getD emptyRec).repeats = some 1 := by
  decide

end QuizApp
